import Mathlib

/-!
Shallow embedding of the Python ctypes binding
`libvoikko/rust/crates/voikko-ffi/python/voikko/_binding.py`.

The native Rust engine behind the FFI is modelled as an oracle structure
`NativeLib` whose fields stand for the exported C functions; the Python
`Voikko` class is embedded as pure functions over a `VoikkoState` record.
Raised Python exceptions become `Except.error`; native NULL pointers become
`Option.none`; each FFI call a method performs is recorded in a trace of
`FFIEvent`s so that ownership and release obligations can be stated.
-/

/-- A native string pointer: `none` models NULL (ctypes decodes a NULL
`c_char_p` to Python `None`). -/
abbrev CStr := Option String

/-- One morphological analysis as the engine returns it: parallel
NULL-terminated `keys`/`values` arrays, modelled as a list of pairs. -/
abbrev RawAnalysis := List (String × String)

/-- A raw token from `voikko_tokens`: `token_type`, `text` (may be NULL),
`position`. -/
structure RawToken where
  token_type : Int
  text : CStr
  position : Nat
deriving DecidableEq, Repr

/-- A raw sentence from `voikko_sentences`: `sentence_type`, `sentence_len`. -/
structure RawSentence where
  sentence_type : Int
  sentence_len : Nat
deriving DecidableEq, Repr

/-- A raw grammar error from `voikko_grammar_errors`: code, start, length,
description (may be NULL), suggestions array (may be NULL). -/
structure RawGrammarError where
  error_code : Int
  start_pos : Nat
  error_len : Nat
  short_description : CStr
  suggestions : Option (List String)
deriving DecidableEq, Repr

/-- The behaviour of the loaded shared library `libvoikko_ffi`: one field per
exported C function used by the binding.  Handles are `Nat` (`0` is the NULL
pointer, which ctypes returns as Python `None`).  `voikko_new` takes the
morphology bytes and the optional autocorrection bytes and yields the handle
(`none` = NULL) together with what it wrote into the `error_msg` out
parameter. -/
structure NativeLib where
  voikko_new : List Nat → Option (List Nat) → Option Nat × CStr
  voikko_spell : Nat → String → Int
  voikko_suggest : Nat → String → Option (List String)
  voikko_analyze : Nat → String → List RawAnalysis
  voikko_insert_hyphens : Nat → String → String → Int → CStr
  voikko_hyphenate : Nat → String → CStr
  voikko_tokens : Nat → String → List RawToken
  voikko_sentences : Nat → String → List RawSentence
  voikko_grammar_errors : Nat → String → String → List RawGrammarError
  voikko_attribute_values : String → Option (List String)

/-- The FFI calls a method performs, in order.  Release functions appear so
that the pairing of allocations with frees is observable. -/
inductive FFIEvent where
  | call_new : FFIEvent
  | call_free : Nat → FFIEvent
  | call_spell : Nat → FFIEvent
  | call_suggest : Nat → FFIEvent
  | call_analyze : Nat → FFIEvent
  | call_insert_hyphens : Nat → FFIEvent
  | call_hyphenate : Nat → FFIEvent
  | call_tokens : Nat → FFIEvent
  | call_sentences : Nat → FFIEvent
  | call_grammar_errors : Nat → FFIEvent
  | call_attribute_values : FFIEvent
  | call_setter : String → Nat → Int → FFIEvent
  | free_str : FFIEvent
  | free_str_array : FFIEvent
  | free_analyses : FFIEvent
  | free_tokens : FFIEvent
  | free_sentences : FFIEvent
  | free_grammar_errors : FFIEvent
deriving DecidableEq, Repr

/-- The state of a Python `Voikko` object: its `_handle` attribute.
`none` models both a missing `_handle` attribute and `_handle = None`. -/
structure VoikkoState where
  handle : Option Nat
deriving DecidableEq, Repr

/-- Python truthiness of `self._handle` (`None` and `0` are falsy). -/
def pyTruthyHandle : Option Nat → Bool
  | none => false
  | some h => h ≠ 0

/-- The pointer value ctypes passes for `self._handle`: `None` becomes the
NULL pointer. -/
def handleArg : Option Nat → Nat
  | none => 0
  | some h => h

/-- Python `int(v)` on a bool. -/
def pyInt (v : Bool) : Int := if v then 1 else 0

/-- `_TOKEN_TYPES = {0: "NONE", 1: "WORD", 2: "PUNCTUATION", 3: "WHITESPACE",
4: "UNKNOWN"}`. -/
def _TOKEN_TYPES : List (Int × String) :=
  [(0, "NONE"), (1, "WORD"), (2, "PUNCTUATION"), (3, "WHITESPACE"), (4, "UNKNOWN")]

/-- `_SENTENCE_TYPES = {0: "NONE", 1: "NO_START", 2: "PROBABLE",
3: "POSSIBLE"}`. -/
def _SENTENCE_TYPES : List (Int × String) :=
  [(0, "NONE"), (1, "NO_START"), (2, "PROBABLE"), (3, "POSSIBLE")]

/-- Python `dict.get(k, d)` on a small literal dict, embedded as association
list lookup with a default. -/
def dictGetD : List (Int × String) → Int → String → String
  | [], _, d => d
  | p :: rest, k, d => if p.1 = k then p.2 else dictGetD rest k d

/-- `_read_null_terminated(ptr)`: NULL yields `[]`, otherwise the strings up
to the terminator. -/
def _read_null_terminated : Option (List String) → List String
  | none => []
  | some l => l

/-- Python dict insertion `d[k] = v` on an insertion-ordered dict embedded as
an association list: an existing key is overwritten in place, a new key is
appended. -/
def pyDictInsert (d : List (String × String)) (k v : String) : List (String × String) :=
  if d.any (fun p => p.1 = k) then d.map (fun p => if p.1 = k then (k, v) else p)
  else d ++ [(k, v)]

/-- The dict built by `analyze`'s inner loop from one analysis's parallel
key/value arrays. -/
def pyDictOfPairs (pairs : RawAnalysis) : List (String × String) :=
  pairs.foldl (fun d p => pyDictInsert d p.1 p.2) []

/-- The `Token` objects `tokens` builds. -/
structure Token where
  type : String
  text : String
  position : Nat
deriving DecidableEq, Repr

/-- The `Sentence` objects `sentences` builds. -/
structure Sentence where
  type : String
  length : Nat
deriving DecidableEq, Repr

/-- The `GrammarError` objects `grammar_errors` builds. -/
structure GrammarError where
  error_code : Int
  start_pos : Nat
  error_len : Nat
  short_description : String
  suggestions : List String
deriving DecidableEq, Repr

/-- The Python exceptions the binding raises. -/
inductive PyError where
  | fileNotFoundError : String → PyError
  | runtimeError : String → PyError
deriving DecidableEq, Repr

/-- `Voikko._check_handle`: raises `RuntimeError` when `not self._handle`. -/
def Voikko.check_handle (s : VoikkoState) : Except PyError Unit :=
  if pyTruthyHandle s.handle then .ok ()
  else .error (.runtimeError "Voikko instance has been terminated")

/-- The filesystem the constructor consults, as an oracle: paths are lists of
components relative to nothing in particular. -/
structure FS where
  isFile : List String → Bool
  readBytes : List String → List Nat

/-- The `mor.vfst` layout resolution in `Voikko.__init__`: the flat layout
`{path}/mor.vfst` wins, else the V5 layout `{path}/5/mor-standard/mor.vfst`
(with `path` rebased to the V5 directory), else `none`.  Returns the chosen
`mor.vfst` path and the directory in which `autocorr.vfst` is looked up. -/
def resolve_layout (fs : FS) (dict_path : List String) :
    Option (List String × List String) :=
  if fs.isFile (dict_path ++ ["mor.vfst"]) then
    some (dict_path ++ ["mor.vfst"], dict_path)
  else if fs.isFile (dict_path ++ ["5", "mor-standard", "mor.vfst"]) then
    some (dict_path ++ ["5", "mor-standard", "mor.vfst"], dict_path ++ ["5", "mor-standard"])
  else none

/-- The autocorrection argument `Voikko.__init__` passes to `voikko_new`:
`autocorr_data` is read only when `autocorr.vfst` is a file next to the
chosen `mor.vfst`, and the Python truthiness test `if autocorr_data:` also
sends empty bytes down the absent (`NULL`, length 0) branch. -/
def autocorr_arg (fs : FS) (dir : List String) : Option (List Nat) :=
  if fs.isFile (dir ++ ["autocorr.vfst"]) then
    let d := fs.readBytes (dir ++ ["autocorr.vfst"])
    if d.isEmpty then none else some d
  else none

/-- `Voikko.__init__(dict_path)`: resolve the layout, read the blobs, call
`voikko_new`; a NULL handle raises `RuntimeError` with the callee's message
(freed via `voikko_free_str`) and produces no state. -/
def Voikko.init (lib : NativeLib) (fs : FS) (dict_path : List String) :
    Except PyError VoikkoState × List FFIEvent :=
  match resolve_layout fs dict_path with
  | none => (.error (.fileNotFoundError "mor.vfst not found"), [])
  | some (mor_path, dir) =>
    let mor_data := fs.readBytes mor_path
    match lib.voikko_new mor_data (autocorr_arg fs dir) with
    | (some h, _) => (.ok { handle := some h }, [.call_new])
    | (none, err) =>
      let msg := match err with
        | some m => m
        | none => "unknown error"
      (.error (.runtimeError ("Failed to initialize Voikko: " ++ msg)),
        [.call_new, .free_str])

/-- `Voikko.terminate`: frees the handle when it is set and truthy, then
clears it; otherwise a no-op. -/
def Voikko.terminate (s : VoikkoState) : VoikkoState × List FFIEvent :=
  if pyTruthyHandle s.handle then ({ handle := none }, [.call_free (handleArg s.handle)])
  else (s, [])

/-- `Voikko.spell(word)`: handle check, then `voikko_spell(...) == 1`. -/
def Voikko.spell (lib : NativeLib) (s : VoikkoState) (word : String) :
    Except PyError Bool :=
  match Voikko.check_handle s with
  | .error e => .error e
  | .ok () => .ok (lib.voikko_spell (handleArg s.handle) word == 1)

/-- `Voikko.suggest(word)`: handle check; a NULL array yields `[]`, otherwise
the strings are copied out and the array is freed via
`voikko_free_str_array`. -/
def Voikko.suggest (lib : NativeLib) (s : VoikkoState) (word : String) :
    Except PyError (List String) × List FFIEvent :=
  match Voikko.check_handle s with
  | .error e => (.error e, [])
  | .ok () =>
    match lib.voikko_suggest (handleArg s.handle) word with
    | none => (.ok [], [.call_suggest (handleArg s.handle)])
    | some l =>
      (.ok (_read_null_terminated (some l)),
        [.call_suggest (handleArg s.handle), .free_str_array])

/-- `Voikko.analyze(word)`: handle check; each analysis's key/value arrays
are copied into a fresh dict, then the array is freed via
`voikko_free_analyses`. -/
def Voikko.analyze (lib : NativeLib) (s : VoikkoState) (word : String) :
    Except PyError (List (List (String × String))) × List FFIEvent :=
  match Voikko.check_handle s with
  | .error e => (.error e, [])
  | .ok () =>
    let arr := lib.voikko_analyze (handleArg s.handle) word
    (.ok (arr.map pyDictOfPairs),
      [.call_analyze (handleArg s.handle), .free_analyses])

/-- `Voikko.hyphenate(word, separator, allow_context_changes)`: handle check;
a NULL result returns the input word unchanged, otherwise the string is
copied and freed via `voikko_free_str`. -/
def Voikko.hyphenate (lib : NativeLib) (s : VoikkoState) (word separator : String)
    (allow_context_changes : Bool) : Except PyError String :=
  match Voikko.check_handle s with
  | .error e => .error e
  | .ok () =>
    match lib.voikko_insert_hyphens (handleArg s.handle) word separator
        (pyInt allow_context_changes) with
    | none => .ok word
    | some r => .ok r

/-- `Voikko.get_hyphenation_pattern(word)`: handle check; a NULL result
returns `" " * len(word)`, otherwise the string is copied and freed. -/
def Voikko.get_hyphenation_pattern (lib : NativeLib) (s : VoikkoState)
    (word : String) : Except PyError String :=
  match Voikko.check_handle s with
  | .error e => .error e
  | .ok () =>
    match lib.voikko_hyphenate (handleArg s.handle) word with
    | none => .ok (String.mk (List.replicate word.length ' '))
    | some r => .ok r

/-- `Voikko.tokens(text)`: handle check; each raw token is copied into a
fresh `Token` (`dict.get` with default `"UNKNOWN"`, NULL text becomes `""`),
then the array is freed via `voikko_free_tokens`. -/
def Voikko.tokens (lib : NativeLib) (s : VoikkoState) (text : String) :
    Except PyError (List Token) × List FFIEvent :=
  match Voikko.check_handle s with
  | .error e => (.error e, [])
  | .ok () =>
    let arr := lib.voikko_tokens (handleArg s.handle) text
    (.ok (arr.map (fun t =>
        { type := dictGetD _TOKEN_TYPES t.token_type "UNKNOWN"
          text := match t.text with
            | some x => x
            | none => ""
          position := t.position })),
      [.call_tokens (handleArg s.handle), .free_tokens])

/-- `Voikko.sentences(text)`: handle check; each raw sentence is copied into
a fresh `Sentence` (`dict.get` with default `"NONE"`), then the array is
freed via `voikko_free_sentences`. -/
def Voikko.sentences (lib : NativeLib) (s : VoikkoState) (text : String) :
    Except PyError (List Sentence) × List FFIEvent :=
  match Voikko.check_handle s with
  | .error e => (.error e, [])
  | .ok () =>
    let arr := lib.voikko_sentences (handleArg s.handle) text
    (.ok (arr.map (fun x =>
        { type := dictGetD _SENTENCE_TYPES x.sentence_type "NONE"
          length := x.sentence_len })),
      [.call_sentences (handleArg s.handle), .free_sentences])

/-- `Voikko.grammar_errors(text, language)`: handle check; each raw error is
copied into a fresh `GrammarError` (NULL description becomes `""`, NULL
suggestion array becomes `[]`), then the array is freed via
`voikko_free_grammar_errors`. -/
def Voikko.grammar_errors (lib : NativeLib) (s : VoikkoState) (text language : String) :
    Except PyError (List GrammarError) × List FFIEvent :=
  match Voikko.check_handle s with
  | .error e => (.error e, [])
  | .ok () =>
    let arr := lib.voikko_grammar_errors (handleArg s.handle) text language
    (.ok (arr.map (fun e =>
        { error_code := e.error_code
          start_pos := e.start_pos
          error_len := e.error_len
          short_description := match e.short_description with
            | some d => d
            | none => ""
          suggestions := match e.suggestions with
            | some l => _read_null_terminated (some l)
            | none => [] })),
      [.call_grammar_errors (handleArg s.handle), .free_grammar_errors])

/-- `Voikko.attribute_values(name)`: no handle check, no session state read;
a NULL array yields `None`, otherwise the strings. -/
def Voikko.attribute_values (lib : NativeLib) (_s : VoikkoState) (name : String) :
    Except PyError (Option (List String)) :=
  match lib.voikko_attribute_values name with
  | none => .ok none
  | some l => .ok (some (_read_null_terminated (some l)))

/-- `Voikko.set_ignore_dot(v)`: calls the native setter directly on
`self._handle` with `int(v)` — there is no `_check_handle` call, so a
terminated instance passes the NULL pointer to the engine and returns
normally. -/
def Voikko.set_ignore_dot (s : VoikkoState) (v : Bool) :
    Except PyError Unit × List FFIEvent :=
  (.ok (), [.call_setter "voikko_set_ignore_dot" (handleArg s.handle) (pyInt v)])

/-- `Voikko.set_max_suggestions(v)`: likewise no handle check. -/
def Voikko.set_max_suggestions (s : VoikkoState) (v : Int) :
    Except PyError Unit × List FFIEvent :=
  (.ok (), [.call_setter "voikko_set_max_suggestions" (handleArg s.handle) v])

/-! ### Concrete oracles for witnesses -/

/-- A concrete native library: every query succeeds trivially, every pointer
result is NULL. -/
def trivLib : NativeLib where
  voikko_new := fun _ _ => (some 7, none)
  voikko_spell := fun _ _ => 1
  voikko_suggest := fun _ _ => none
  voikko_analyze := fun _ _ => []
  voikko_insert_hyphens := fun _ _ _ _ => none
  voikko_hyphenate := fun _ _ => none
  voikko_tokens := fun _ _ => []
  voikko_sentences := fun _ _ => []
  voikko_grammar_errors := fun _ _ _ => []
  voikko_attribute_values := fun _ => none

/-- A concrete native library whose `voikko_new` always fails with a
descriptive message. -/
def failLib : NativeLib :=
  { trivLib with voikko_new := fun _ _ => (none, some "bad data") }

/-- A concrete filesystem with a flat-layout dictionary under `d/`. -/
def fsFlat : FS where
  isFile := fun p => p == ["d", "mor.vfst"]
  readBytes := fun _ => [1, 2, 3]

/-! ### Claim theorems -/

/-- C1: on a terminated instance (handle `None`) the option setter
`set_ignore_dot` performs no handle check: it returns normally and passes the
NULL pointer to the native setter, whereas `spell` on the same state raises
`RuntimeError`.  This evaluates the code at the claim's failing input. -/
theorem set_ignore_dot_skips_handle_check :
    Voikko.set_ignore_dot { handle := none } true
      = (.ok (), [.call_setter "voikko_set_ignore_dot" 0 1])
    ∧ Voikko.spell trivLib { handle := none } "koira"
      = .error (.runtimeError "Voikko instance has been terminated") :=
  ⟨rfl, rfl⟩

/-- C2: when `voikko_new` returns a NULL handle together with a descriptive
message, the constructor raises `RuntimeError` whose message contains the
callee's string, frees that string via `voikko_free_str`, and produces no
state. -/
theorem init_null_handle_raises (lib : NativeLib) (fs : FS) (p : List String)
    (m : String)
    (hmor : fs.isFile (p ++ ["mor.vfst"]) = true)
    (hnew : lib.voikko_new (fs.readBytes (p ++ ["mor.vfst"])) (autocorr_arg fs p)
      = (none, some m)) :
    Voikko.init lib fs p
      = (.error (.runtimeError ("Failed to initialize Voikko: " ++ m)),
         [.call_new, .free_str]) := by
  simp [Voikko.init, resolve_layout, hmor, hnew]

/-- C2 witness: a concrete library whose `voikko_new` fails with message
`"bad data"` makes the constructor raise and free the string. -/
theorem init_null_handle_raises_witness :
    Voikko.init failLib fsFlat ["d"]
      = (.error (.runtimeError ("Failed to initialize Voikko: " ++ "bad data")),
         [.call_new, .free_str]) :=
  init_null_handle_raises failLib fsFlat ["d"] "bad data" (by decide) rfl

/-- Modelled from the spec: the Rust engine behind `voikko_hyphenate` is not
among the visible source files; the spec states that the hyphenation pattern
always has length exactly `len(word)`, so any non-NULL pattern the native
call returns has the word's length. -/
def HyphenatePatternSpec (lib : NativeLib) : Prop :=
  ∀ h w r, lib.voikko_hyphenate h w = some r → r.length = w.length

/-- C3: for every word on a live handle, `get_hyphenation_pattern` returns a
string of length `len(word)`, the NULL-pointer case (spaces) included. -/
theorem get_hyphenation_pattern_length (lib : NativeLib) (hdl : Nat) (word : String)
    (hspec : HyphenatePatternSpec lib) (hnz : hdl ≠ 0) :
    ∃ r, Voikko.get_hyphenation_pattern lib { handle := some hdl } word = .ok r
      ∧ r.length = word.length := by
  have hch : Voikko.check_handle { handle := some hdl } = .ok () := by
    simp [Voikko.check_handle, pyTruthyHandle, hnz]
  unfold Voikko.get_hyphenation_pattern
  rw [hch]
  cases hv : lib.voikko_hyphenate (handleArg (some hdl)) word with
  | none =>
    refine ⟨_, rfl, ?_⟩
    show (List.replicate word.length ' ').length = word.length
    simp
  | some r =>
    exact ⟨r, rfl, hspec _ _ _ hv⟩

/-- C3 witness: on a concrete library whose native hyphenate returns NULL,
the pattern for `"abc"` has length 3. -/
theorem get_hyphenation_pattern_length_witness :
    ∃ r, Voikko.get_hyphenation_pattern trivLib { handle := some 7 } "abc" = .ok r
      ∧ r.length = ("abc" : String).length :=
  get_hyphenation_pattern_length trivLib 7 "abc"
    (fun _ _ _ h => Option.noConfusion h) (by decide)

/-- C4: the constructor resolves the dictionary layout itself: flat
`mor.vfst` wins, else the V5 path, else a `FileNotFoundError` with an empty
FFI trace (no engine call); `autocorr.vfst` is read only when present next to
the chosen `mor.vfst` and is passed as absent otherwise. -/
theorem init_layout_resolution (fs : FS) (lib : NativeLib) (p : List String) :
    (fs.isFile (p ++ ["mor.vfst"]) = true →
      resolve_layout fs p = some (p ++ ["mor.vfst"], p))
    ∧ (fs.isFile (p ++ ["mor.vfst"]) = false →
        fs.isFile (p ++ ["5", "mor-standard", "mor.vfst"]) = true →
        resolve_layout fs p
          = some (p ++ ["5", "mor-standard", "mor.vfst"], p ++ ["5", "mor-standard"]))
    ∧ (fs.isFile (p ++ ["mor.vfst"]) = false →
        fs.isFile (p ++ ["5", "mor-standard", "mor.vfst"]) = false →
        Voikko.init lib fs p = (.error (.fileNotFoundError "mor.vfst not found"), []))
    ∧ (∀ dir, fs.isFile (dir ++ ["autocorr.vfst"]) = false → autocorr_arg fs dir = none)
    ∧ (∀ dir, fs.isFile (dir ++ ["autocorr.vfst"]) = true →
        autocorr_arg fs dir
          = (if (fs.readBytes (dir ++ ["autocorr.vfst"])).isEmpty then none
             else some (fs.readBytes (dir ++ ["autocorr.vfst"])))) := by
  refine ⟨?_, ?_, ?_, ?_, ?_⟩ <;> intros <;>
    simp_all [resolve_layout, Voikko.init, autocorr_arg]

/-- C5: `attribute_values` reads no session state (any two states give the
same result), never raises, and returns `None` exactly when the native call
returns NULL. -/
theorem attribute_values_handle_independent (lib : NativeLib) (s1 s2 : VoikkoState)
    (name : String) :
    Voikko.attribute_values lib s1 name = Voikko.attribute_values lib s2 name
    ∧ (∃ v, Voikko.attribute_values lib s1 name = .ok v)
    ∧ (lib.voikko_attribute_values name = none →
        Voikko.attribute_values lib s1 name = .ok none) := by
  refine ⟨rfl, ?_, ?_⟩
  · unfold Voikko.attribute_values
    cases lib.voikko_attribute_values name <;> exact ⟨_, rfl⟩
  · intro h
    simp [Voikko.attribute_values, h]

/-- Number of `voikko_free` calls in a trace. -/
def freeCount (tr : List FFIEvent) : Nat :=
  tr.countP (fun e => match e with
    | .call_free _ => true
    | _ => false)

/-- C6: `terminate` is idempotent: a second terminate is a no-op with an
empty trace, at most one `voikko_free` happens across both calls, and a
truthy handle is cleared to `None` by the first call. -/
theorem terminate_idempotent (s : VoikkoState) :
    (Voikko.terminate (Voikko.terminate s).1).1 = (Voikko.terminate s).1
    ∧ (Voikko.terminate (Voikko.terminate s).1).2 = []
    ∧ freeCount ((Voikko.terminate s).2 ++ (Voikko.terminate (Voikko.terminate s).1).2) ≤ 1
    ∧ (pyTruthyHandle s.handle = true → (Voikko.terminate s).1 = { handle := none }) := by
  rcases s with ⟨_ | h⟩
  · simp [Voikko.terminate, pyTruthyHandle, freeCount]
  · by_cases h0 : h = 0
    · subst h0
      simp [Voikko.terminate, pyTruthyHandle, freeCount]
    · simp [Voikko.terminate, pyTruthyHandle, h0, freeCount, handleArg,
        List.countP_cons, List.countP_nil]

/-- C7: each result collection is a pure copy of the engine's data and the
matching paired free is performed inside the call: `voikko_free_str_array`
exactly once per non-NULL suggestion array, and the unconditional array frees
for analyze/tokens/sentences/grammar errors appear in the trace right after
the producing call and before the method returns. -/
theorem results_freed_and_copied (lib : NativeLib) (hdl : Nat) (w : String)
    (hnz : hdl ≠ 0) :
    ((Voikko.suggest lib { handle := some hdl } w).2.count FFIEvent.free_str_array
        = if (lib.voikko_suggest hdl w).isSome then 1 else 0)
    ∧ (Voikko.suggest lib { handle := some hdl } w).1
        = .ok (_read_null_terminated (lib.voikko_suggest hdl w))
    ∧ (Voikko.analyze lib { handle := some hdl } w).2
        = [.call_analyze hdl, .free_analyses]
    ∧ (Voikko.analyze lib { handle := some hdl } w).1
        = .ok ((lib.voikko_analyze hdl w).map pyDictOfPairs)
    ∧ (Voikko.tokens lib { handle := some hdl } w).2 = [.call_tokens hdl, .free_tokens]
    ∧ (Voikko.sentences lib { handle := some hdl } w).2
        = [.call_sentences hdl, .free_sentences]
    ∧ (Voikko.grammar_errors lib { handle := some hdl } w "fi").2
        = [.call_grammar_errors hdl, .free_grammar_errors] := by
  have hch : Voikko.check_handle { handle := some hdl } = .ok () := by
    simp [Voikko.check_handle, pyTruthyHandle, hnz]
  unfold Voikko.suggest Voikko.analyze Voikko.tokens Voikko.sentences
    Voikko.grammar_errors
  rw [hch]
  cases hv : lib.voikko_suggest (handleArg (some hdl)) w <;>
    simp_all [handleArg, _read_null_terminated, List.count_cons, List.count_nil]

/-- C7 witness: on a concrete library whose suggestion array is NULL, no
`voikko_free_str_array` call appears. -/
theorem results_freed_and_copied_witness :
    (Voikko.suggest trivLib { handle := some 7 } "x").2.count FFIEvent.free_str_array
      = if (trivLib.voikko_suggest 7 "x").isSome then 1 else 0 :=
  (results_freed_and_copied trivLib 7 "x" (by decide)).1

/-- C8: on a live handle, `spell(word)` is `True` exactly when the native
`voikko_spell` returns the integer 1; every other return value yields
`False`. -/
theorem spell_true_iff_one (lib : NativeLib) (hdl : Nat) (word : String)
    (hnz : hdl ≠ 0) :
    (Voikko.spell lib { handle := some hdl } word = .ok true
      ↔ lib.voikko_spell hdl word = 1)
    ∧ (lib.voikko_spell hdl word ≠ 1 →
        Voikko.spell lib { handle := some hdl } word = .ok false) := by
  have hch : Voikko.check_handle { handle := some hdl } = .ok () := by
    simp [Voikko.check_handle, pyTruthyHandle, hnz]
  unfold Voikko.spell
  rw [hch]
  constructor
  · simp [handleArg]
  · intro h
    simp [handleArg, h]

/-- C8 witness: on a concrete library always answering 1, `spell` is
`True`. -/
theorem spell_true_iff_one_witness :
    Voikko.spell trivLib { handle := some 7 } "koira" = .ok true :=
  (spell_true_iff_one trivLib 7 "koira" (by decide)).1.mpr rfl

/-- C9: the numeric decodings are total with fixed defaults: token codes 0–4
map to NONE/WORD/PUNCTUATION/WHITESPACE/UNKNOWN and any other code to
`"UNKNOWN"`; sentence codes 0–3 map to NONE/NO_START/PROBABLE/POSSIBLE and
any other code to `"NONE"`; `tokens` and `sentences` always return a result
on a live handle, never an exception. -/
theorem token_sentence_decode_total (c : Int) (lib : NativeLib) (hdl : Nat)
    (text : String) :
    (¬ (0 ≤ c ∧ c ≤ 4) → dictGetD _TOKEN_TYPES c "UNKNOWN" = "UNKNOWN")
    ∧ dictGetD _TOKEN_TYPES 0 "UNKNOWN" = "NONE"
    ∧ dictGetD _TOKEN_TYPES 1 "UNKNOWN" = "WORD"
    ∧ dictGetD _TOKEN_TYPES 2 "UNKNOWN" = "PUNCTUATION"
    ∧ dictGetD _TOKEN_TYPES 3 "UNKNOWN" = "WHITESPACE"
    ∧ dictGetD _TOKEN_TYPES 4 "UNKNOWN" = "UNKNOWN"
    ∧ (¬ (0 ≤ c ∧ c ≤ 3) → dictGetD _SENTENCE_TYPES c "NONE" = "NONE")
    ∧ dictGetD _SENTENCE_TYPES 0 "NONE" = "NONE"
    ∧ dictGetD _SENTENCE_TYPES 1 "NONE" = "NO_START"
    ∧ dictGetD _SENTENCE_TYPES 2 "NONE" = "PROBABLE"
    ∧ dictGetD _SENTENCE_TYPES 3 "NONE" = "POSSIBLE"
    ∧ (hdl ≠ 0 →
        (∃ l, (Voikko.tokens lib { handle := some hdl } text).1 = .ok l)
        ∧ (∃ l, (Voikko.sentences lib { handle := some hdl } text).1 = .ok l)) := by
  have hch : ∀ hdl : Nat, hdl ≠ 0 →
      Voikko.check_handle { handle := some hdl } = .ok () := by
    intro hdl hnz
    simp [Voikko.check_handle, pyTruthyHandle, hnz]
  refine ⟨?_, rfl, rfl, rfl, rfl, rfl, ?_, rfl, rfl, rfl, rfl, ?_⟩
  · intro h
    simp only [_TOKEN_TYPES, dictGetD]
    rw [if_neg (by omega), if_neg (by omega), if_neg (by omega),
      if_neg (by omega), if_neg (by omega)]
  · intro h
    simp only [_SENTENCE_TYPES, dictGetD]
    rw [if_neg (by omega), if_neg (by omega), if_neg (by omega),
      if_neg (by omega)]
  · intro hnz
    constructor
    · unfold Voikko.tokens
      rw [hch hdl hnz]
      exact ⟨_, rfl⟩
    · unfold Voikko.sentences
      rw [hch hdl hnz]
      exact ⟨_, rfl⟩

/-- C10: on a live handle, when the native insert-hyphens call returns NULL,
`hyphenate` returns the input word unchanged. -/
theorem hyphenate_null_returns_word (lib : NativeLib) (hdl : Nat)
    (word sep : String) (acc : Bool) (hnz : hdl ≠ 0)
    (hnull : lib.voikko_insert_hyphens hdl word sep (pyInt acc) = none) :
    Voikko.hyphenate lib { handle := some hdl } word sep acc = .ok word := by
  have hch : Voikko.check_handle { handle := some hdl } = .ok () := by
    simp [Voikko.check_handle, pyTruthyHandle, hnz]
  unfold Voikko.hyphenate
  rw [hch]
  simp [handleArg, hnull]

/-- C10 witness: on a concrete library whose insert-hyphens is NULL,
`hyphenate "koira"` returns `"koira"`. -/
theorem hyphenate_null_returns_word_witness :
    Voikko.hyphenate trivLib { handle := some 7 } "koira" "-" true = .ok "koira" :=
  hyphenate_null_returns_word trivLib 7 "koira" "-" true (by decide) rfl
